import Mathlib

/-!
Verification of src/server.py: a small development HTTP server for a
progressive web app.  The Python handler (`PWAHandler`, subclassing
CPython standard-library `SimpleHTTPRequestHandler`) and the `main`
entry point are embedded below as executable Lean definitions; request
paths and file names are lists of characters, response traffic is a
trace of events, and process-level behaviour of `main` is a function of
the exception raised inside its try block.
-/

namespace Server

/-! ## Basic values -/

/-- File contents: a list of byte values. -/
abbrev Bytes := List Nat

/-- The Python exceptions that the embedded handler code can raise. -/
inductive PyExc where
  | valueError (msg : String)
  | fileNotFoundError (filename : List Char)
  deriving DecidableEq, Repr

/-! ## urllib.parse — the path component

`PWAHandler.do_GET` calls `urlparse(self.path)` and inspects only the
`.path` component.  The definitions below follow CPython
`urllib.parse.urlsplit` step by step: input cleaning, scheme removal,
network-location removal, then splitting off fragment and query. -/

/-- Split a character list at the first occurrence of `sep`: the part
before it and, when `sep` occurs, the remainder after it (as CPython
`str.split(sep, 1)` does). -/
def splitFirst (sep : Char) : List Char → List Char × Option (List Char)
  | [] => ([], none)
  | c :: rest =>
    if c = sep then ([], some rest)
    else
      let r := splitFirst sep rest
      (c :: r.1, r.2)

/-- The part of a character list before the first occurrence of `sep`
(the whole list when `sep` does not occur). -/
def takeUntil (sep : Char) (s : List Char) : List Char :=
  (splitFirst sep s).1

/-- CPython `urlsplit` preprocessing: strip leading C0 control
characters and spaces, then delete every tab, carriage return and line
feed. -/
def cleanUrl (url : List Char) : List Char :=
  (url.dropWhile (fun c => decide (c.toNat ≤ 32))).filter
    (fun c => !(c == '\t' || c == '\r' || c == '\n'))

/-- Characters allowed in a URL scheme (letters, digits, plus, minus,
dot). -/
def isSchemeChar (c : Char) : Bool :=
  c.isAlpha || c.isDigit || c == '+' || c == '-' || c == '.'

/-- CPython `urlsplit` scheme handling: when the URL starts with an
ASCII letter and a colon follows with only scheme characters before it,
everything up to and including the colon is removed. -/
def splitScheme (url : List Char) : List Char :=
  match url with
  | [] => []
  | c :: rest =>
    if c.isAlpha then
      match splitFirst ':' (c :: rest) with
      | (before, some r) => if before.all isSchemeChar then r else c :: rest
      | (_, none) => c :: rest
    else c :: rest

/-- CPython `urlsplit` network-location handling: a URL beginning with
two slashes has its network-location part removed, up to the next
slash, question mark or hash (the netloc contents themselves are not
needed here). -/
def splitNetloc (url : List Char) : List Char :=
  match url with
  | c1 :: c2 :: rest =>
    if c1 = '/' ∧ c2 = '/' then rest.dropWhile (fun c => !(c == '/' || c == '?' || c == '#'))
    else url
  | _ => url

/-- The `.path` component of `urllib.parse.urlparse`, as used by
`PWAHandler.do_GET`: clean the URL, drop scheme and netloc, then drop
the fragment (first hash onwards) and the query (first question mark
onwards). -/
def urlparse_path (url : List Char) : List Char :=
  takeUntil '?' (takeUntil '#' (splitNetloc (splitScheme (cleanUrl url))))

/-! ## Headers and response events -/

/-- A response header: name and value. -/
abbrev Header := String × String

/-- The six headers that `PWAHandler.end_headers` adds to every
response: three cache-disabling headers and three CORS headers
(src/server.py lines 16–27). -/
def pwa_headers : List Header :=
  [("Cache-Control", "no-cache, no-store, must-revalidate"),
   ("Pragma", "no-cache"),
   ("Expires", "0"),
   ("Access-Control-Allow-Origin", "*"),
   ("Access-Control-Allow-Methods", "GET, POST, OPTIONS"),
   ("Access-Control-Allow-Headers", "Content-Type")]

/-- `PWAHandler.end_headers`: append the six PWA headers to the headers
buffered so far, then flush (`super().end_headers()`).  The result is
the header block actually written to the wire. -/
def end_headers (buffered : List Header) : List Header :=
  buffered ++ pwa_headers

/-- One item of response traffic written to the client connection.
Directory-listing documents and error-page bodies are recorded as
opaque events (their HTML text plays no role here). -/
inductive Event where
  | statusLine (code : Nat)
  | header (h : Header)
  | endOfHeaders
  | body (bs : Bytes)
  | listingFor (dir : List Char)
  | errorBody (code : Nat)
  deriving DecidableEq, Repr

/-- A complete response head as flushed by the overridden
`end_headers`: the status line, the buffered headers followed by the
six PWA headers, and the blank line ending the head.  The `Server` and
`Date` headers added by `send_response` are not modelled (no claim
mentions them). -/
def flushBlock (code : Nat) (buffered : List Header) : List Event :=
  Event.statusLine code :: ((end_headers buffered).map Event.header ++ [Event.endOfHeaders])

/-! ## The served directory tree -/

/-- The filesystem subtree under the working directory: regular files
with their contents, and directories.  Names are relative to the
working directory; `[]` denotes the working directory itself. -/
structure FS where
  files : List (List Char × Bytes)
  dirs : List (List Char)
  deriving DecidableEq

/-- Contents of a regular file, when it exists (`open(name, 'rb')`
followed by `read()`). -/
def FS.readFile (fs : FS) (name : List Char) : Option Bytes :=
  fs.files.lookup name

/-- `os.path.isdir` relative to the working directory. -/
def FS.isdir (fs : FS) (name : List Char) : Bool :=
  fs.dirs.contains name

/-- `os.path.exists` relative to the working directory. -/
def FS.pathExists (fs : FS) (name : List Char) : Bool :=
  (fs.readFile name).isSome || fs.isdir name

/-! ## guess_type -/

/-- `str.endswith`. -/
def endswith (s suffix : List Char) : Bool :=
  suffix.isSuffixOf s

/-- The two shapes of value `PWAHandler.guess_type` can produce: the
bare overridden string, or the pair built by `return mimetype,
encoding`. -/
inductive GuessResult where
  | single (mime : String)
  | pair (mimetype encoding : String)
  deriving DecidableEq, Repr

deriving instance DecidableEq for Except

/-- `PWAHandler.guess_type` (src/server.py lines 54–62).  `superGuess`
stands for the superclass `SimpleHTTPRequestHandler.guess_type`, which
in CPython returns one MIME-type string.  The first statement of the
method, `mimetype, encoding = super().guess_type(path)`, iterates over
that string: it succeeds only when the string has exactly two
characters (binding each as a one-character string) and raises
`ValueError` otherwise.  Only afterwards does the method test the
manifest suffixes. -/
def guess_type (superGuess : List Char → String) (path : List Char) :
    Except PyExc GuessResult :=
  match (superGuess path).toList with
  | [a, b] =>
    if endswith path (".webmanifest".toList) || endswith path ("manifest.json".toList) then
      Except.ok (GuessResult.single ("application/manifest+json"))
    else
      Except.ok (GuessResult.pair (String.mk [a]) (String.mk [b]))
  | [] => Except.error (PyExc.valueError ("not enough values to unpack"))
  | [_] => Except.error (PyExc.valueError ("not enough values to unpack"))
  | _ => Except.error (PyExc.valueError ("too many values to unpack"))

/-- Modelled from the CPython standard library (http.server):
`SimpleHTTPRequestHandler.guess_type` consults its extension map and
the mimetypes registry and always returns a single MIME-type string —
for example text/html for .html — falling back to
application/octet-stream.  Only a representative extension table is
included; every value is a full MIME-type string of the form
type/subtype. -/
def stdlib_guess_type (path : List Char) : String :=
  if endswith path (".html".toList) || endswith path (".htm".toList) then "text/html"
  else if endswith path (".js".toList) then "text/javascript"
  else if endswith path (".json".toList) then "application/json"
  else if endswith path (".css".toList) then "text/css"
  else "application/octet-stream"

/-- The string that ends up in the Content-type header value:
`send_header` formats its value with %s, so the bare string passes
through and a pair is rendered as a parenthesised tuple (the quoting of
the elements inside the rendered tuple is not modelled; with the real
superclass this branch is unreachable, since MIME-type strings never
have exactly two characters). -/
def ctypeString : GuessResult → String
  | GuessResult.single m => m
  | GuessResult.pair a b => "(" ++ a ++ ", " ++ b ++ ")"

/-! ## translate_path and the default (superclass) GET path -/

/-- `str.rstrip`: drop trailing whitespace characters. -/
def rstrip (s : List Char) : List Char :=
  (s.reverse.dropWhile
    (fun c => c == ' ' || c == '\t' || c == '\n' || c == '\r' || c == '\x0b' || c == '\x0c')).reverse

/-- `str.split(sep)`: split on every occurrence of a separator. -/
def splitAll (sep : Char) : List Char → List (List Char)
  | [] => [[]]
  | c :: rest =>
    let r := splitAll sep rest
    if c = sep then [] :: r
    else (c :: r.headI) :: r.tail

/-- Collapse current- and parent-directory components as
`posixpath.normpath` does for absolute paths: `..` cancels the
preceding component (and is dropped at the root), `.` and empty
components are dropped. -/
def resolveDots (ws : List (List Char)) : List (List Char) :=
  ws.foldl
    (fun acc w =>
      if w = ['.', '.'] then acc.dropLast
      else if w = ['.'] ∨ w = [] then acc
      else acc ++ [w])
    []

/-- Join path components with slashes (the `os.path.join` chain in
`translate_path`). -/
def joinSlash : List (List Char) → List Char
  | [] => []
  | [w] => w
  | w :: rest => w ++ '/' :: joinSlash rest

/-- `SimpleHTTPRequestHandler.translate_path`, taken relative to the
working directory: drop query and fragment, record whether the path
(with trailing whitespace stripped) ends in a slash, then split on
slashes and normalise away empty, `.` and `..` components.
Percent-decoding is not modelled: the request paths considered in this
development contain no percent escapes. -/
def translate_path (reqPath : List Char) : List Char × Bool :=
  let p := takeUntil '#' (takeUntil '?' reqPath)
  let trailingSlash := endswith (rstrip p) ['/']
  (joinSlash (resolveDots (splitAll '/' p)), trailingSlash)

/-- `BaseHTTPRequestHandler.send_error`: an error head — note that it
too is flushed through the overridden `end_headers` — followed by the
explanatory HTML body (whose text and Content-Length header are not
modelled). -/
def send_error (code : Nat) : List Event :=
  flushBlock code [("Connection", "close"), ("Content-Type", "text/html;charset=utf-8")]
    ++ [Event.errorBody code]

/-- The tail of `SimpleHTTPRequestHandler.send_head` for a
non-directory filesystem path, together with `do_GET` copying the file
body: first guess the content type (through the overridden
`guess_type`, whose exception aborts the request before anything is
written), then reject paths that ended in a slash, then open the file —
a failed open yields 404 — and finally send the head and the bytes.
The Last-Modified header is not modelled. -/
def serveFile (superGuess : List Char → String) (fs : FS) (fsPath : List Char)
    (trailingSlash : Bool) : List Event × Option PyExc :=
  match guess_type superGuess fsPath with
  | Except.error e => ([], some e)
  | Except.ok g =>
    if trailingSlash then (send_error 404, none)
    else
      match fs.readFile fsPath with
      | none => (send_error 404, none)
      | some bs =>
        (flushBlock 200 [("Content-type", ctypeString g), ("Content-Length", toString bs.length)]
          ++ [Event.body bs], none)

/-- The index filenames tried for a directory. -/
def indexFiles : List (List Char) := ["index.html".toList, "index.htm".toList]

/-- `os.path.join` for a directory and a name inside it. -/
def pathJoin (dir name : List Char) : List Char :=
  if dir.isEmpty then name else dir ++ '/' :: name

/-- The first index file that exists in a directory, if any. -/
def findIndex (fs : FS) (dir : List Char) : Option (List Char) :=
  (indexFiles.map (pathJoin dir)).find? (fun p => fs.pathExists p)

/-- `SimpleHTTPRequestHandler.do_GET` (`send_head` plus `copyfile`) as
inherited by `PWAHandler`: a directory requested without a trailing
slash is redirected with 301 (reattachment of the query string to the
Location value is not modelled); otherwise an index file is served if
one exists, else the directory listing; any other path is served as a
file through the overridden `guess_type`. -/
def super_do_GET (superGuess : List Char → String) (fs : FS) (reqPath : List Char) :
    List Event × Option PyExc :=
  let tp := translate_path reqPath
  if fs.isdir tp.1 then
    if !(endswith (urlparse_path reqPath) ['/']) then
      (flushBlock 301 [("Location", String.mk (urlparse_path reqPath ++ ['/'])),
                       ("Content-Length", "0")], none)
    else
      match findIndex fs tp.1 with
      | some idx => serveFile superGuess fs idx false
      | none =>
        (flushBlock 200 [("Content-type", "text/html; charset=utf-8")]
          ++ [Event.listingFor tp.1], none)
  else
    serveFile superGuess fs tp.1 tp.2

/-- One special-path branch of `PWAHandler.do_GET`: `send_response(200)`,
the forced Content-type header, `end_headers()` — which flushes the
head to the (unbuffered) connection — then `open(name, 'rb')` and write
the bytes.  There is no existence check: a missing file raises
`FileNotFoundError` after the head is already out. -/
def serveSpecial (fs : FS) (name : List Char) (ctype : String) :
    List Event × Option PyExc :=
  let head := flushBlock 200 [("Content-type", ctype)]
  match fs.readFile name with
  | none => (head, some (PyExc.fileNotFoundError name))
  | some bs => (head ++ [Event.body bs], none)

/-- `PWAHandler.do_GET` (src/server.py lines 29–52): parse the request
target and inspect its path component; `/manifest.json` and `/sw.js`
are served from the working directory with forced content types;
everything else defers to the superclass. -/
def do_GET (superGuess : List Char → String) (fs : FS) (reqPath : List Char) :
    List Event × Option PyExc :=
  let p := urlparse_path reqPath
  if p = "/manifest.json".toList then
    serveSpecial fs ("manifest.json".toList) ("application/manifest+json")
  else if p = "/sw.js".toList then
    serveSpecial fs ("sw.js".toList) ("application/javascript")
  else
    super_do_GET superGuess fs reqPath

/-! ## main (src/server.py lines 64–95) -/

/-- The fixed listening port. -/
def PORT : Nat := 8000

/-- The server address that `main` passes to `TCPServer`.  `main` takes
no parameters and never reads `sys.argv`, so the address is the same
for every command line the process is started with. -/
def bindAddress (_ : List String) : String × Nat :=
  ("", PORT)

/-- The banner printed once the server is up (src/server.py lines
72–84). -/
def startupBanner : List String :=
  ["🚀 Daily Routine PWA Server",
   "📱 Open in browser: http://localhost:" ++ toString PORT,
   "📲 On mobile: http://[your-ip]:" ++ toString PORT,
   "🛑 Press Ctrl+C to stop",
   "",
   "📋 Features available:",
   "   ✅ Box Breathing (4-7 seconds configurable)",
   "   ✅ 4-7-8 Breathing",
   "   ✅ Audio cues every X seconds",
   "   ✅ Haptic feedback",
   "   ✅ Offline functionality",
   "   ✅ Install as PWA",
   ""]

/-- An exception raised inside the try block of `main`. -/
inductive ServeExc where
  | keyboardInterrupt
  | oSError (errno : Int) (msg : String)
  | other (desc : String)
  deriving DecidableEq, Repr

/-- Where the try block of `main` raised: at `TCPServer` construction
(the bind, before the banner is printed), or from `serve_forever` after
the banner. -/
inductive TryOutcome where
  | bindError (e : ServeExc)
  | serveRaised (e : ServeExc)
  deriving DecidableEq, Repr

/-- The exception carried by a `TryOutcome`. -/
def TryOutcome.exc : TryOutcome → ServeExc
  | TryOutcome.bindError e => e
  | TryOutcome.serveRaised e => e

/-- How the process ends: `main` returning normally (the module-level
caller then finishes and the process exit status is 0), an explicit
`sys.exit`, or an exception that no handler catches. -/
inductive ExitKind where
  | fallthrough
  | sysExit (code : Nat)
  | unhandled (e : ServeExc)
  deriving DecidableEq, Repr

/-- The process exit status, when the run is not an unhandled fault. -/
def ExitKind.code : ExitKind → Option Nat
  | ExitKind.fallthrough => some 0
  | ExitKind.sysExit n => some n
  | ExitKind.unhandled _ => none

/-- What `main` prints and how the process ends. -/
structure MainOutcome where
  printed : List String
  exit : ExitKind
  deriving DecidableEq, Repr

/-- CPython renders an `OSError` that carries an errno as
`[Errno n] strerror`. -/
def osErrorStr (errno : Int) (msg : String) : String :=
  "[Errno " ++ toString errno ++ "] " ++ msg

/-- `main` (src/server.py lines 64–95): bind `TCPServer(("", PORT))`,
print the banner, `serve_forever()`.  `except KeyboardInterrupt` prints
the stop message and falls through (process exit 0).  `except OSError`
prints either the port-in-use advice (when `errno == 48`, the value the
source comments as address-already-in-use) or a generic server-error
line, and calls `sys.exit(1)` in both branches.  Any other exception
propagates unhandled.  The argument records which exception, if any,
the try block raised and whether it preceded the banner. -/
def main (t : TryOutcome) : MainOutcome :=
  let pre : List String :=
    match t with
    | TryOutcome.bindError _ => []
    | TryOutcome.serveRaised _ => startupBanner
  match t.exc with
  | ServeExc.keyboardInterrupt =>
    ⟨pre ++ ["\n🛑 Server stopped"], ExitKind.fallthrough⟩
  | ServeExc.oSError errno msg =>
    if errno = 48 then
      ⟨pre ++ ["❌ Port " ++ toString PORT ++ " is already in use",
               "💡 Try a different port or stop the existing server"],
       ExitKind.sysExit 1⟩
    else
      ⟨pre ++ ["❌ Server error: " ++ osErrorStr errno msg], ExitKind.sysExit 1⟩
  | ServeExc.other d => ⟨pre, ExitKind.unhandled (ServeExc.other d)⟩

/-! ## Concrete directory trees used to instantiate the theorems -/

/-- A working directory holding both special files. -/
def fsW : FS := ⟨[("manifest.json".toList, [1, 2, 3]), ("sw.js".toList, [4, 5])], [[]]⟩

/-- An empty working directory. -/
def fsEmpty : FS := ⟨[], [[]]⟩

/-- A working directory holding only an index.html file. -/
def fsHtml : FS := ⟨[("index.html".toList, [60, 104, 62])], [[]]⟩

/-! ## Supporting lemmas -/

theorem splitFirst_append {c : Char} {a : List Char} (b : List Char) (h : c ∉ a) :
    splitFirst c (a ++ b) = (a ++ (splitFirst c b).1, (splitFirst c b).2) := by
  induction a with
  | nil => simp
  | cons x xs ih =>
    have hx : ¬(x = c) := fun he => h (he ▸ List.mem_cons_self x xs)
    have h2 : c ∉ xs := fun hm => h (List.mem_cons_of_mem _ hm)
    rw [List.cons_append]
    simp only [splitFirst, if_neg hx, ih h2, List.cons_append]

theorem takeUntil_append {c : Char} {a : List Char} (b : List Char) (h : c ∉ a) :
    takeUntil c (a ++ b) = a ++ takeUntil c b := by
  unfold takeUntil
  rw [splitFirst_append b h]

theorem takeUntil_cons_self (c : Char) (l : List Char) : takeUntil c (c :: l) = [] := by
  simp [takeUntil, splitFirst]

/-- Appending a query string to a plain absolute path does not change
the parsed path component: the query split happens at the first
question mark.  The hypotheses say that the path starts with a single
slash (so neither scheme nor netloc parsing applies), contains only
characters above the control/space range, and contains no question
mark or hash of its own. -/
theorem urlparse_path_append_query (c2 : Char) (rest q : List Char)
    (hc2 : c2 ≠ '/')
    (hplain : ∀ c ∈ '/' :: c2 :: rest, 32 < c.toNat)
    (hq : '?' ∉ '/' :: c2 :: rest)
    (hh : '#' ∉ '/' :: c2 :: rest) :
    urlparse_path (('/' :: c2 :: rest) ++ '?' :: q) = '/' :: c2 :: rest := by
  have hdrop :
      (('/' :: c2 :: rest) ++ '?' :: q).dropWhile (fun c => decide (c.toNat ≤ 32))
        = ('/' :: c2 :: rest) ++ '?' :: q := by
    rw [List.cons_append, List.dropWhile_cons, if_neg (by decide)]
  have hpred : ∀ c ∈ '/' :: c2 :: rest, (!(c == '\t' || c == '\r' || c == '\n')) = true := by
    intro c hc
    have h32 := hplain c hc
    simp only [Bool.not_eq_true', Bool.or_eq_false_iff, beq_eq_false_iff_ne, ne_eq]
    refine ⟨⟨?_, ?_⟩, ?_⟩ <;> rintro rfl <;> exact absurd h32 (by decide)
  have hfilter :
      (('/' :: c2 :: rest) ++ '?' :: q).filter (fun c => !(c == '\t' || c == '\r' || c == '\n'))
        = ('/' :: c2 :: rest) ++ '?' :: q.filter (fun c => !(c == '\t' || c == '\r' || c == '\n')) := by
    rw [List.filter_append, List.filter_eq_self.mpr hpred, List.filter_cons, if_pos (by decide)]
  have hclean :
      cleanUrl (('/' :: c2 :: rest) ++ '?' :: q)
        = ('/' :: c2 :: rest) ++ '?' :: q.filter (fun c => !(c == '\t' || c == '\r' || c == '\n')) := by
    unfold cleanUrl
    rw [hdrop, hfilter]
  have hscheme : ∀ l : List Char, splitScheme ('/' :: l) = '/' :: l := fun l => rfl
  have hnetloc : ∀ l : List Char, splitNetloc ('/' :: c2 :: l) = '/' :: c2 :: l := by
    intro l
    simp only [splitNetloc]
    rw [if_neg (fun hand => hc2 hand.2)]
  set q2 := q.filter (fun c => !(c == '\t' || c == '\r' || c == '\n')) with hq2
  unfold urlparse_path
  rw [hclean, List.cons_append, List.cons_append, hscheme, hnetloc]
  have hassoc : '/' :: c2 :: (rest ++ '?' :: q2) = (('/' :: c2 :: rest) ++ ['?']) ++ q2 := by
    simp
  rw [hassoc, takeUntil_append q2 (by
    simp only [List.mem_append, List.mem_singleton]
    rintro (h | h)
    · exact hh h
    · exact absurd h (by decide))]
  have hassoc2 :
      (('/' :: c2 :: rest) ++ ['?']) ++ takeUntil '#' q2
        = ('/' :: c2 :: rest) ++ '?' :: takeUntil '#' q2 := by
    simp
  rw [hassoc2, takeUntil_append _ hq, takeUntil_cons_self, List.append_nil]

/-- Every header added by `end_headers` appears in every flushed
response head. -/
theorem header_mem_flushBlock {code : Nat} {buf : List Header} {hd : Header}
    (hh : hd ∈ pwa_headers) : Event.header hd ∈ flushBlock code buf := by
  have h1 : Event.header hd ∈ (end_headers buf).map Event.header :=
    List.mem_map_of_mem _ (List.mem_append_right _ hh)
  exact List.mem_cons_of_mem _ (List.mem_append_left _ h1)

/-- Every trace `do_GET` produces is either empty (the request aborted
before anything was written) or starts with a head flushed through
`end_headers`. -/
theorem do_GET_head_shape (sg : List Char → String) (fs : FS) (reqPath : List Char) :
    (do_GET sg fs reqPath).1 = []
    ∨ ∃ code buf tail, (do_GET sg fs reqPath).1 = flushBlock code buf ++ tail := by
  simp only [do_GET, serveSpecial, super_do_GET, serveFile, send_error]
  repeat' split
  all_goals
    first
      | exact Or.inl rfl
      | exact Or.inr ⟨_, _, _, rfl⟩
      | exact Or.inr ⟨_, _, [], (List.append_nil _).symm⟩

/-! ## The claims -/

/-- C1: every GET request whose parsed path component is /manifest.json
(resp. /sw.js) is answered with status 200, Content-type
application/manifest+json (resp. application/javascript) and the bytes
of the file of that name from the working directory; the response does
not depend on the content-type inference function, so default inference
is bypassed. -/
theorem special_paths_forced_content_type
    (sg sg2 : List Char → String) (fs : FS) (reqPath : List Char) (bs : Bytes) :
    (urlparse_path reqPath = "/manifest.json".toList →
      fs.readFile ("manifest.json".toList) = some bs →
      do_GET sg fs reqPath
        = (flushBlock 200 [("Content-type", "application/manifest+json")]
            ++ [Event.body bs], none)
      ∧ do_GET sg fs reqPath = do_GET sg2 fs reqPath)
    ∧ (urlparse_path reqPath = "/sw.js".toList →
      fs.readFile ("sw.js".toList) = some bs →
      do_GET sg fs reqPath
        = (flushBlock 200 [("Content-type", "application/javascript")]
            ++ [Event.body bs], none)
      ∧ do_GET sg fs reqPath = do_GET sg2 fs reqPath) := by
  have hne : "/sw.js".toList ≠ "/manifest.json".toList := by decide
  constructor
  · intro hp hf
    constructor
    · simp only [do_GET, serveSpecial]
      rw [hp, if_pos rfl, hf]
    · simp only [do_GET]
      rw [hp, if_pos rfl, if_pos rfl]
  · intro hp hf
    constructor
    · simp only [do_GET, serveSpecial]
      rw [hp, if_neg hne, if_pos rfl, hf]
    · simp only [do_GET]
      rw [hp, if_neg hne, if_neg hne, if_pos rfl, if_pos rfl]

/-- C1 witness: the theorem instantiated in a directory holding both
special files, at the request path /manifest.json. -/
theorem special_paths_forced_content_type_witness :
    do_GET stdlib_guess_type fsW ("/manifest.json".toList)
      = (flushBlock 200 [("Content-type", "application/manifest+json")]
          ++ [Event.body [1, 2, 3]], none) :=
  ((special_paths_forced_content_type stdlib_guess_type (fun _ => "text/html") fsW
      ("/manifest.json".toList) [1, 2, 3]).1 (by decide) (by decide)).1

/-- C2: every response the handler writes — any trace that contains a
completed header block — carries the three cache-disabling headers and
the three CORS headers, for every request path, every directory tree
and every content-type inference function. -/
theorem every_response_has_cache_and_cors_headers
    (sg : List Char → String) (fs : FS) (reqPath : List Char)
    (h : Event.endOfHeaders ∈ (do_GET sg fs reqPath).1) :
    ∀ hd ∈ pwa_headers, Event.header hd ∈ (do_GET sg fs reqPath).1 := by
  intro hd hhd
  rcases do_GET_head_shape sg fs reqPath with he | ⟨code, buf, tail, he⟩
  · rw [he] at h
    exact absurd h (List.not_mem_nil _)
  · rw [he]
    exact List.mem_append_left _ (header_mem_flushBlock hhd)

/-- C2 witness: the theorem instantiated at a concrete request whose
trace contains a completed header block, for one of the six headers. -/
theorem every_response_has_cache_and_cors_headers_witness :
    Event.header (("Pragma", "no-cache"))
      ∈ (do_GET stdlib_guess_type fsW ("/manifest.json".toList)).1 :=
  every_response_has_cache_and_cors_headers stdlib_guess_type fsW ("/manifest.json".toList)
    (by decide) (("Pragma", "no-cache")) (by decide)

/-- C8: the two special paths are matched on the parsed path component
only, so any query string appended after a question mark yields exactly
the same response as the bare path. -/
theorem query_string_ignored_for_special_paths
    (sg : List Char → String) (fs : FS) (q : List Char) :
    do_GET sg fs ("/manifest.json".toList ++ '?' :: q)
      = do_GET sg fs ("/manifest.json".toList)
    ∧ do_GET sg fs ("/sw.js".toList ++ '?' :: q)
      = do_GET sg fs ("/sw.js".toList) := by
  have h1 : urlparse_path ("/manifest.json".toList ++ '?' :: q) = "/manifest.json".toList :=
    urlparse_path_append_query 'm' ("anifest.json".toList) q (by decide) (by decide)
      (by decide) (by decide)
  have h2 : urlparse_path ("/manifest.json".toList) = "/manifest.json".toList := by decide
  have h3 : urlparse_path ("/sw.js".toList ++ '?' :: q) = "/sw.js".toList :=
    urlparse_path_append_query 's' ("w.js".toList) q (by decide) (by decide)
      (by decide) (by decide)
  have h4 : urlparse_path ("/sw.js".toList) = "/sw.js".toList := by decide
  have hne : "/sw.js".toList ≠ "/manifest.json".toList := by decide
  constructor
  · simp only [do_GET]
    rw [h1, h2, if_pos rfl, if_pos rfl]
  · simp only [do_GET]
    rw [h3, h4, if_neg hne, if_neg hne, if_pos rfl, if_pos rfl]

/-- C8 witness: the theorem instantiated at the query string v=2. -/
theorem query_string_ignored_for_special_paths_witness :
    do_GET stdlib_guess_type fsW ("/manifest.json".toList ++ '?' :: ("v=2".toList))
      = do_GET stdlib_guess_type fsW ("/manifest.json".toList) :=
  (query_string_ignored_for_special_paths stdlib_guess_type fsW ("v=2".toList)).1

/-- C9: the special-path branches perform no existence check: when the
file is missing, the handler still writes the complete 200 head (status
line, forced Content-type, the six PWA headers), never a 404, and then
raises FileNotFoundError opening the file. -/
theorem special_paths_no_existence_check
    (sg : List Char → String) (fs : FS) (reqPath : List Char) :
    (urlparse_path reqPath = "/manifest.json".toList →
      fs.readFile ("manifest.json".toList) = none →
      do_GET sg fs reqPath
        = (flushBlock 200 [("Content-type", "application/manifest+json")],
           some (PyExc.fileNotFoundError ("manifest.json".toList)))
      ∧ Event.statusLine 404 ∉ (do_GET sg fs reqPath).1)
    ∧ (urlparse_path reqPath = "/sw.js".toList →
      fs.readFile ("sw.js".toList) = none →
      do_GET sg fs reqPath
        = (flushBlock 200 [("Content-type", "application/javascript")],
           some (PyExc.fileNotFoundError ("sw.js".toList)))
      ∧ Event.statusLine 404 ∉ (do_GET sg fs reqPath).1) := by
  have hne : "/sw.js".toList ≠ "/manifest.json".toList := by decide
  constructor
  · intro hp hf
    have heq : do_GET sg fs reqPath
        = (flushBlock 200 [("Content-type", "application/manifest+json")],
           some (PyExc.fileNotFoundError ("manifest.json".toList))) := by
      simp only [do_GET, serveSpecial]
      rw [hp, if_pos rfl, hf]
    refine ⟨heq, ?_⟩
    rw [heq]
    decide
  · intro hp hf
    have heq : do_GET sg fs reqPath
        = (flushBlock 200 [("Content-type", "application/javascript")],
           some (PyExc.fileNotFoundError ("sw.js".toList))) := by
      simp only [do_GET, serveSpecial]
      rw [hp, if_neg hne, if_pos rfl, hf]
    refine ⟨heq, ?_⟩
    rw [heq]
    decide

/-- C9 witness: the theorem instantiated in the empty working
directory at the request path /manifest.json. -/
theorem special_paths_no_existence_check_witness :
    do_GET stdlib_guess_type fsEmpty ("/manifest.json".toList)
      = (flushBlock 200 [("Content-type", "application/manifest+json")],
         some (PyExc.fileNotFoundError ("manifest.json".toList))) :=
  ((special_paths_no_existence_check stdlib_guess_type fsEmpty
      ("/manifest.json".toList)).1 (by decide) (by decide)).1

/-- C3 (code bug): default serving does not follow standard
static-serving semantics.  With the standard-library superclass
returning a single MIME-type string, the unpack in the overridden
guess_type raises ValueError for every file request before anything is
written: an existing index.html is not served with text/html, and a
missing file never gets its 404. -/
theorem default_serving_raises_before_responding :
    do_GET stdlib_guess_type fsHtml ("/index.html".toList)
      = ([], some (PyExc.valueError ("too many values to unpack")))
    ∧ do_GET stdlib_guess_type fsEmpty ("/missing.txt".toList)
      = ([], some (PyExc.valueError ("too many values to unpack")))
    ∧ Event.statusLine 404 ∉ (do_GET stdlib_guess_type fsEmpty ("/missing.txt".toList)).1
    ∧ Event.statusLine 200 ∉ (do_GET stdlib_guess_type fsHtml ("/index.html".toList)).1 := by
  refine ⟨by decide, by decide, by decide, by decide⟩

/-- C10 counterexample: the claim asserts that guess_type returns the
bare string application/manifest+json for a path ending in
.webmanifest — but the tuple unpack of the superclass string happens
first, so with the standard-library superclass it raises ValueError
instead. -/
theorem guess_type_manifest_counterexample :
    guess_type stdlib_guess_type ("app.webmanifest".toList)
      ≠ Except.ok (GuessResult.single ("application/manifest+json"))
    ∧ guess_type stdlib_guess_type ("app.webmanifest".toList)
      = Except.error (PyExc.valueError ("too many values to unpack")) := by
  refine ⟨by decide, by decide⟩

/-- C10 (amended): the unpack of the superclass return value happens
first, for every path: whenever that string does not have exactly two
characters, guess_type raises ValueError — manifest paths included;
only when it has exactly two does a manifest-suffixed path get the bare
overridden string, every other path the pair of one-character
strings. -/
theorem guess_type_characterization (sg : List Char → String) (path : List Char) :
    ((sg path).toList.length ≠ 2 →
      ∃ m, guess_type sg path = Except.error (PyExc.valueError m))
    ∧ (∀ a b, (sg path).toList = [a, b] →
      guess_type sg path =
        (if endswith path (".webmanifest".toList) || endswith path ("manifest.json".toList)
         then Except.ok (GuessResult.single ("application/manifest+json"))
         else Except.ok (GuessResult.pair (String.mk [a]) (String.mk [b])))) := by
  constructor
  · intro hl
    have hl2 : (sg path).data.length ≠ 2 := by simpa [String.toList] using hl
    rcases h : (sg path).data with _ | ⟨a, _ | ⟨b, _ | ⟨c, rest⟩⟩⟩
    · exact ⟨"not enough values to unpack", by simp [guess_type, h]⟩
    · exact ⟨"not enough values to unpack", by simp [guess_type, h]⟩
    · rw [h] at hl2
      exact absurd rfl hl2
    · exact ⟨"too many values to unpack", by simp [guess_type, h]⟩
  · intro a b hab
    simp only [guess_type]
    rw [hab]

/-- C10 amended witness: the theorem instantiated once with a
superclass string of the usual length (raises) and once with an
artificial two-character superclass string (unpack succeeds). -/
theorem guess_type_characterization_witness :
    (∃ m, guess_type (fun _ => "text/html") ("x.webmanifest".toList)
        = Except.error (PyExc.valueError m))
    ∧ guess_type (fun _ => "xy") ("a.txt".toList)
        = Except.ok (GuessResult.pair ("x") ("y")) := by
  constructor
  · exact (guess_type_characterization (fun _ => "text/html") ("x.webmanifest".toList)).1
      (by decide)
  · rw [(guess_type_characterization (fun _ => "xy") ("a.txt".toList)).2 'x' 'y' (by decide)]
    decide

/-! ## Claims about main -/

/-- C4 counterexample: an OSError whose errno is not 48 — here errno
13, permission denied, raised while serving — is caught and handled
with a printed message and sys.exit(1); it does not propagate as an
unhandled fault.  Port-in-use and keyboard interrupt are therefore not
the only handled failure cases. -/
theorem other_os_error_is_handled_counterexample :
    (main (TryOutcome.serveRaised (ServeExc.oSError 13 ("Permission denied")))).exit
      = ExitKind.sysExit 1
    ∧ ("❌ Server error: [Errno 13] Permission denied")
        ∈ (main (TryOutcome.serveRaised (ServeExc.oSError 13 ("Permission denied")))).printed
    ∧ ∀ e, (main (TryOutcome.serveRaised (ServeExc.oSError 13 ("Permission denied")))).exit
        ≠ ExitKind.unhandled e := by
  refine ⟨rfl, by decide, ?_⟩
  intro e h
  exact ExitKind.noConfusion h

/-- C4 (amended): the handled failure cases are keyboard interrupt
(message, then fall through with exit status 0) and every OSError
(message, then sys.exit(1) — with port-specific advice exactly when
errno is 48); only non-OSError, non-KeyboardInterrupt exceptions
propagate as unhandled faults.  There are no retries and no
recovery: every case ends the process. -/
theorem main_failure_handling_characterization (t : TryOutcome) :
    (main t).exit =
      (match t.exc with
       | ServeExc.keyboardInterrupt => ExitKind.fallthrough
       | ServeExc.oSError _ _ => ExitKind.sysExit 1
       | ServeExc.other d => ExitKind.unhandled (ServeExc.other d)) := by
  cases t with
  | bindError e =>
    cases e with
    | keyboardInterrupt => rfl
    | oSError errno msg =>
      simp only [main, TryOutcome.exc]
      split <;> rfl
    | other d => rfl
  | serveRaised e =>
    cases e with
    | keyboardInterrupt => rfl
    | oSError errno msg =>
      simp only [main, TryOutcome.exc]
      split <;> rfl
    | other d => rfl

/-- C4 amended witness: the characterization instantiated at a
non-OSError exception raised while serving, which is unhandled. -/
theorem main_failure_handling_characterization_witness :
    (main (TryOutcome.serveRaised (ServeExc.other ("RuntimeError")))).exit
      = ExitKind.unhandled (ServeExc.other ("RuntimeError")) :=
  main_failure_handling_characterization (TryOutcome.serveRaised (ServeExc.other ("RuntimeError")))

/-- C5: a bind failure with errno 48 — the errno the source identifies
as address-already-in-use — prints the port-in-use advice and exits
with code 1. -/
theorem port_in_use_message_and_exit_one (msg : String) :
    ("❌ Port 8000 is already in use")
      ∈ (main (TryOutcome.bindError (ServeExc.oSError 48 msg))).printed
    ∧ ("💡 Try a different port or stop the existing server")
      ∈ (main (TryOutcome.bindError (ServeExc.oSError 48 msg))).printed
    ∧ (main (TryOutcome.bindError (ServeExc.oSError 48 msg))).exit = ExitKind.sysExit 1
    ∧ (main (TryOutcome.bindError (ServeExc.oSError 48 msg))).exit.code = some 1 := by
  refine ⟨?_, ?_, rfl, rfl⟩
  · exact List.mem_cons_self _ _
  · exact List.mem_cons_of_mem _ (List.mem_cons_self _ _)

/-- C5 witness: the theorem instantiated at the strerror text a second
instance on the same port produces. -/
theorem port_in_use_message_and_exit_one_witness :
    ("❌ Port 8000 is already in use")
      ∈ (main (TryOutcome.bindError (ServeExc.oSError 48 ("Address already in use")))).printed
    ∧ (main (TryOutcome.bindError (ServeExc.oSError 48 ("Address already in use")))).exit
      = ExitKind.sysExit 1 :=
  ⟨(port_in_use_message_and_exit_one ("Address already in use")).1,
   (port_in_use_message_and_exit_one ("Address already in use")).2.2.1⟩

/-- C6: a keyboard interrupt while the server is running prints the
clean shutdown message and the process exits with status 0 (main falls
through its handler and returns). -/
theorem keyboard_interrupt_clean_exit_zero :
    (main (TryOutcome.serveRaised ServeExc.keyboardInterrupt)).printed
      = startupBanner ++ ["\n🛑 Server stopped"]
    ∧ (main (TryOutcome.serveRaised ServeExc.keyboardInterrupt)).exit.code = some 0 :=
  ⟨rfl, rfl⟩

/-- C7: the server address handed to TCPServer is ("", 8000) for every
command line; no input to the program reaches the port. -/
theorem fixed_port_ignores_argv (argv : List String) :
    bindAddress argv = ("", 8000) ∧ PORT = 8000 :=
  ⟨rfl, rfl⟩

/-- C7 witness: the theorem instantiated at a command line that tries
to pass a different port. -/
theorem fixed_port_ignores_argv_witness :
    bindAddress ["--port", "9000"] = ("", 8000) ∧ PORT = 8000 :=
  fixed_port_ignores_argv ["--port", "9000"]

end Server
